import Mathlib

/-
Verification of the persona-generation pipeline core:
PersonaPipelineService (orchestrator, retry executor, transient-error
classifier), GeminiService (structured-response validation, audio-script
length enforcement) and ElevenLabsService (speech-synthesis error mapping).

Strings are modelled through their character lists; the JavaScript string
operations used by the source (toLowerCase, includes, trim, substring,
lastIndexOf, split on whitespace runs, regex replaces of the code-fence and
quote patterns) are embedded as explicit List Char functions.  Asynchronous
operations are modelled as per-attempt outcome functions Nat -> Except Err A:
the value at n is the outcome the operation would produce on its n-th
invocation.  Wall-clock time is abstracted by the elapsed-milliseconds value
observed when the pipeline assembles its result.
-/

namespace Personification

/-- Backtick character, written by code to keep fence handling explicit. -/
def btick : Char := Char.ofNat 96

/-- Double-quote character. -/
def dquote : Char := Char.ofNat 34

/-- Single-quote character. -/
def squote : Char := Char.ofNat 39

/-- JavaScript String.prototype.includes: substring containment test. -/
def strContains (hay sub : String) : Bool :=
  hay.data.tails.any (fun t => sub.data.isPrefixOf t)

/-- JavaScript String.prototype.toLowerCase restricted to character-wise
lowering (the source only matches ASCII patterns). -/
def toLowerStr (s : String) : String :=
  String.mk (s.data.map Char.toLower)

/-- Characters removed by String.prototype.trim at either end. -/
def trimChars (cs : List Char) : List Char :=
  ((cs.dropWhile Char.isWhitespace).reverse.dropWhile Char.isWhitespace).reverse

/-- JavaScript String.prototype.trim. -/
def jsTrim (s : String) : String :=
  String.mk (trimChars s.data)

/-- Whitespace-run token counter: the length of
text.split(whitespace-runs).filter(nonempty), as used by countWords. -/
def countWordsGo : Bool → List Char → Nat
  | _, [] => 0
  | inWord, c :: rest =>
    if c.isWhitespace then countWordsGo false rest
    else (if inWord then 0 else 1) + countWordsGo true rest

/-- GeminiService.countWords: split on whitespace runs, drop empty tokens,
count the rest. -/
def countWords (text : String) : Nat :=
  countWordsGo false text.data

/-- Length of the array produced by JavaScript text.split(whitespace-run
regex): the non-empty tokens plus one empty token for a leading whitespace
run and one for a trailing whitespace run; the empty string yields one
(empty) token. -/
def jsSplitWsCount (s : String) : Nat :=
  if s.data.isEmpty then 1
  else
    countWords s
      + (match s.data.head? with
         | some c => if c.isWhitespace then 1 else 0
         | none => 0)
      + (match s.data.getLast? with
         | some c => if c.isWhitespace then 1 else 0
         | none => 0)

/-- Transient-condition markers of PersonaPipelineService.isTransientError. -/
def transientPatterns : List String :=
  ["timeout", "network", "connection", "econnrefused", "enotfound",
   "etimedout", "socket hang up", "temporarily unavailable"]

/-- Non-retryable markers of PersonaPipelineService.isTransientError. -/
def nonRetryablePatterns : List String :=
  ["rate limit", "quota", "authentication", "api key", "invalid",
   "not found", "private", "inaccessible", "validation"]

/-- PersonaPipelineService.isTransientError: lower-case the message, require
at least one transient marker and no non-retryable marker. -/
def isTransientError (message : String) : Bool :=
  let m := toLowerStr message
  let isTransient := transientPatterns.any (fun p => strContains m p)
  let isNonRetryable := nonRetryablePatterns.any (fun p => strContains m p)
  isTransient && !isNonRetryable

/-- Error value carrying its human-readable message. -/
structure Err where
  message : String

/-- Observable behaviour of one retryWithBackoff call: the settled outcome,
how many times the wrapped operation ran, the backoff delays awaited (in
milliseconds, in order), and the diagnostic log lines emitted. -/
structure RetryTrace (α : Type) where
  result : Except Err α
  invocations : Nat
  delays : List Nat
  logs : List String

/-- Loop body of PersonaPipelineService.retryWithBackoff.  The fuel argument
counts the loop iterations still allowed by the for-loop bound; it starts at
maxRetries + 1, and the fuel-exhausted case is the unreachable
throw-lastError fallback after the loop. -/
def retryAux {α : Type} (fn : Nat → Except Err α) (operationName : String)
    (maxRetries : Nat) : Nat → Nat → Option Err → RetryTrace α
  | _attempt, 0, lastError =>
    { result := Except.error
        (lastError.getD ⟨operationName ++ " failed after all retries"⟩),
      invocations := 0, delays := [], logs := [] }
  | attempt, fuel + 1, _lastError =>
    match fn attempt with
    | Except.ok v =>
      { result := Except.ok v, invocations := 1, delays := [], logs := [] }
    | Except.error e =>
      if attempt == maxRetries || !isTransientError e.message then
        { result := Except.error e, invocations := 1, delays := [],
          logs := [operationName ++ " failed after " ++ toString (attempt + 1)
                    ++ " attempt(s): " ++ e.message] }
      else
        let delay := 2 ^ attempt * 1000
        let rest := retryAux fn operationName maxRetries (attempt + 1) fuel
          (Option.some e)
        { result := rest.result,
          invocations := rest.invocations + 1,
          delays := delay :: rest.delays,
          logs := (operationName ++ " failed (attempt " ++ toString (attempt + 1)
                    ++ "/" ++ toString (maxRetries + 1) ++ "): " ++ e.message
                    ++ ". Retrying in " ++ toString delay ++ "ms...")
                  :: rest.logs }

/-- PersonaPipelineService.retryWithBackoff: run the per-attempt outcome
function for attempts 0..maxRetries with exponential backoff between
retryable failures. -/
def retryWithBackoff {α : Type} (fn : Nat → Except Err α)
    (operationName : String) (maxRetries : Nat) : RetryTrace α :=
  retryAux fn operationName maxRetries 0 (maxRetries + 1) Option.none

/-- Base64 alphabet used by Buffer.toString in base64 mode. -/
def base64Alphabet : List Char :=
  "ABCDEFGHIJKLMNOPQRSTUVWXYZabcdefghijklmnopqrstuvwxyz0123456789+/".data

/-- Character for one 6-bit group. -/
def base64Char (n : Nat) : Char := base64Alphabet.getD n 'A'

/-- Standard base64 chunking of a byte list, with '=' padding. -/
def base64Chunks : List Nat → List Char
  | [] => []
  | [b1] =>
    [base64Char (b1 / 4), base64Char (b1 % 4 * 16), Char.ofNat 61, Char.ofNat 61]
  | [b1, b2] =>
    [base64Char (b1 / 4), base64Char (b1 % 4 * 16 + b2 / 16),
     base64Char (b2 % 16 * 4), Char.ofNat 61]
  | b1 :: b2 :: b3 :: rest =>
    base64Char (b1 / 4) :: base64Char (b1 % 4 * 16 + b2 / 16)
      :: base64Char (b2 % 16 * 4 + b3 / 64) :: base64Char (b3 % 64)
      :: base64Chunks rest

/-- JavaScript audioBuffer.toString in base64 mode, bytes as naturals. -/
def base64Encode (bytes : List Nat) : String :=
  String.mk (base64Chunks bytes)

/-- ElevenLabsService AudioResult: audio bytes plus estimated duration. -/
structure AudioResult where
  audioBuffer : List Nat
  duration : Nat

/-- Empty-script validation of ElevenLabsService.synthesizeSpeech: the
script is falsy (empty) or trims to length zero. -/
def scriptEmptyCheck (script : String) : Bool :=
  script == "" || (jsTrim script).length == 0

/-- Error mapping of the catch block of ElevenLabsService.synthesizeSpeech:
quota and rate-limit failures, then authentication and API-key failures, get
fixed user-facing messages; the empty-script validation error is re-thrown
as-is; everything else is wrapped. -/
def mapSynthesisError (message : String) : String :=
  if strContains message ("quota") || strContains message ("rate limit") then
    ("ElevenLabs rate limit exceeded. Please try again later.")
  else if strContains message ("authentication") || strContains message ("API key") then
    ("ElevenLabs authentication failed. Please check API key configuration.")
  else if strContains message ("Script cannot be empty") then message
  else ("Audio synthesis failed: " ++ message)

/-- Estimated duration of ElevenLabsService.synthesizeSpeech: the ceiling of
wordCount / 150 * 60 seconds, with wordCount the length of the
whitespace-run split of the script (computed here in exact rational
arithmetic: ceil of 2 * wordCount / 5). -/
def estimatedDuration (script : String) : Nat :=
  (2 * jsSplitWsCount script + 4) / 5

/-- ElevenLabsService.synthesizeSpeech with the remote text-to-speech call
abstracted to its outcome (audio bytes or an error): validate the script,
run the call, build the AudioResult; any error is re-thrown through
mapSynthesisError. -/
def synthesizeSpeech (script : String) (api : Except Err (List Nat)) :
    Except Err AudioResult :=
  let inner : Except Err AudioResult :=
    if scriptEmptyCheck script then Except.error ⟨"Script cannot be empty"⟩
    else
      match api with
      | Except.error e => Except.error e
      | Except.ok buf => Except.ok ⟨buf, estimatedDuration script⟩
  match inner with
  | Except.ok r => Except.ok r
  | Except.error e => Except.error ⟨mapSynthesisError e.message⟩

/-- PersonaGenerationResult of PersonaPipelineService, polymorphic in the
persona record type (the orchestrator never inspects it). -/
structure PersonaGenerationResult (P : Type) where
  persona : P
  audioUrl : String
  audioScript : String
  processingTime : Nat

/-- PersonaPipelineService.generatePersona.  The four stage operations are
per-attempt outcome functions (each stage call depends on the previous
stage's value, as in the source closures); processingTime abstracts the
elapsed wall-clock milliseconds observed when the result or failure is
assembled.  Stages 1-3 run through retryWithBackoff inside the outer
try/catch: any settled failure is re-thrown wrapped with pipeline context.
Stage 4 runs in an inner try/catch: a settled failure degrades to an empty
audioUrl, a success is encoded as a base64 data URI. -/
def generatePersona {A P : Type} (analyze : Nat → Except Err A)
    (genPersonaStage : A → Nat → Except Err P)
    (genScriptStage : P → Nat → Except Err String)
    (synthStage : String → Nat → Except Err AudioResult)
    (processingTime : Nat) : Except Err (PersonaGenerationResult P) :=
  match (retryWithBackoff analyze ("Article text analysis") 2).result with
  | Except.error e =>
    Except.error ⟨"Persona generation failed: " ++ e.message⟩
  | Except.ok analysis =>
    match (retryWithBackoff (genPersonaStage analysis) ("Persona generation") 2).result with
    | Except.error e =>
      Except.error ⟨"Persona generation failed: " ++ e.message⟩
    | Except.ok persona =>
      match (retryWithBackoff (genScriptStage persona) ("Audio script generation") 2).result with
      | Except.error e =>
        Except.error ⟨"Persona generation failed: " ++ e.message⟩
      | Except.ok audioScript =>
        let audioUrl :=
          match (retryWithBackoff (synthStage audioScript) ("Audio synthesis") 2).result with
          | Except.ok audioResult =>
            "data:audio/mpeg;base64," ++ base64Encode audioResult.audioBuffer
          | Except.error _ => ""
        Except.ok ⟨persona, audioUrl, audioScript, processingTime⟩

/-- Test for the backtick character. -/
def isBacktick (c : Char) : Bool := c = btick

/-- Test for a lowercase ASCII letter, the character class of the code-fence
language tag. -/
def isLowerAsciiLetter (c : Char) : Bool := 'a' ≤ c && c ≤ 'z'

/-- Global replace of the fence-with-language-tag pattern (three backticks,
a run of lowercase letters, an optional newline) by the empty string,
scanning left to right as the JavaScript regex engine does.  Fuel is the
remaining input length; every step consumes at least one character. -/
def stripFencesTagged : Nat → List Char → List Char
  | 0, cs => cs
  | _fuel + 1, [] => []
  | fuel + 1, c :: rest =>
    if isBacktick c && rest.length ≥ 2 && (rest.take 2).all isBacktick then
      let afterLetters := (rest.drop 2).dropWhile isLowerAsciiLetter
      let afterNl :=
        if afterLetters.head? = Option.some '\n' then afterLetters.drop 1
        else afterLetters
      stripFencesTagged fuel afterNl
    else c :: stripFencesTagged fuel rest

/-- Global replace of the bare fence pattern (three backticks, an optional
newline) by the empty string. -/
def stripFencesBare : Nat → List Char → List Char
  | 0, cs => cs
  | _fuel + 1, [] => []
  | fuel + 1, c :: rest =>
    if isBacktick c && rest.length ≥ 2 && (rest.take 2).all isBacktick then
      let afterTicks := rest.drop 2
      let afterNl :=
        if afterTicks.head? = Option.some '\n' then afterTicks.drop 1
        else afterTicks
      stripFencesBare fuel afterNl
    else c :: stripFencesBare fuel rest

/-- Test whether the text begins with a three-backtick code fence. -/
def startsWithFence (s : String) : Bool :=
  "```".data.isPrefixOf s.data

/-- Quote characters removed at the ends by cleanAudioScript. -/
def isQuoteChar (c : Char) : Bool := c = dquote || c = squote

/-- Global replace of the anchored leading-or-trailing-quote pattern: drops
one quote character at the start and one at the end. -/
def stripQuotes (cs : List Char) : List Char :=
  let cs1 :=
    match cs with
    | c :: rest => if isQuoteChar c then rest else cs
    | [] => []
  match cs1.getLast? with
  | Option.some c => if isQuoteChar c then cs1.dropLast else cs1
  | Option.none => cs1

/-- Collapse of each run of adjacent spaces to a single space. -/
def squeezeSpaces : List Char → List Char
  | [] => []
  | [c] => [c]
  | c1 :: c2 :: rest =>
    if c1 = ' ' && c2 = ' ' then squeezeSpaces (c2 :: rest)
    else c1 :: squeezeSpaces (c2 :: rest)

/-- Global replace of each whitespace run by a single space. -/
def collapseWs (cs : List Char) : List Char :=
  squeezeSpaces (cs.map (fun c => if c.isWhitespace then ' ' else c))

/-- GeminiService.cleanAudioScript: trim, strip code fences when the text
starts with one, strip one leading and one trailing quote, collapse
whitespace runs to single spaces, trim again. -/
def cleanAudioScript (text : String) : String :=
  let t0 := jsTrim text
  let cs :=
    if startsWithFence t0 then
      stripFencesBare (stripFencesTagged t0.data.length t0.data).length
        (stripFencesTagged t0.data.length t0.data)
    else t0.data
  let cs := stripQuotes cs
  String.mk (trimChars (collapseWs cs))

/-- JavaScript String.prototype.lastIndexOf for a single character. -/
def lastIndexOfChar (cs : List Char) (c : Char) : Option Nat :=
  match cs.reverse.findIdx? (fun x => x = c) with
  | Option.some j => Option.some (cs.length - 1 - j)
  | Option.none => Option.none

/-- Truncation branch of GeminiService.generateAudioScript: take the first
800 characters, trim, and cut after the last period when its index exceeds
600 (a missing period is index -1 in the source, which fails the test). -/
def truncateTo800 (script : String) : String :=
  let truncated := jsTrim (String.mk (script.data.take 800))
  match lastIndexOfChar truncated.data '.' with
  | Option.some i =>
    if i > 600 then String.mk (truncated.data.take (i + 1)) else truncated
  | Option.none => truncated

/-- Observable behaviour of one generateAudioScript call: the returned
script and the model calls issued, each recorded with the previous word
count passed as feedback (none for the initial draft request). -/
structure ScriptGenTrace where
  script : String
  calls : List (Option Nat)

/-- GeminiService.generateAudioScript with the two possible model responses
abstracted to their raw texts: firstRaw is the draft response, and
retryRawOf t the regeneration response when the prompt carries previous
word count t.  Mirrors the source: clean the draft; over 800 characters,
truncate and return; word count outside 110..150, regenerate once, truncate
an over-long retry, otherwise return the retry exactly when its word count
is in range and the original draft if not; otherwise return the draft. -/
def generateAudioScript (firstRaw : String) (retryRawOf : Nat → String) :
    ScriptGenTrace :=
  let script := cleanAudioScript firstRaw
  let wordCount := countWords script
  let charCount := script.length
  if charCount > 800 then
    ⟨truncateTo800 script, [Option.none]⟩
  else if wordCount < 110 ∨ wordCount > 150 then
    let retryScript := cleanAudioScript (retryRawOf wordCount)
    let retryWordCount := countWords retryScript
    let retryCharCount := retryScript.length
    if retryCharCount > 800 then
      ⟨truncateTo800 retryScript, [Option.none, Option.some wordCount]⟩
    else
      ⟨if retryWordCount ≥ 110 ∧ retryWordCount ≤ 150 then retryScript
        else script,
       [Option.none, Option.some wordCount]⟩
  else ⟨script, [Option.none]⟩

/-- Parsed JSON documents, as produced by the platform JSON parser (whose
text-level parsing is a runtime builtin outside this repository; validation
below starts from the parsed document).  Numbers are integers here: the
persona and analysis schemas carry no numeric fields. -/
inductive Json where
  | null : Json
  | bool (b : Bool) : Json
  | num (n : Int) : Json
  | str (s : String) : Json
  | arr (elems : List Json) : Json
  | obj (fields : List (String × Json)) : Json

/-- JavaScript truthiness of a parsed JSON value (an absent property reads
as undefined, modelled by null). -/
def truthy : Json → Bool
  | Json.null => false
  | Json.bool b => b
  | Json.num n => n != 0
  | Json.str s => s != ""
  | Json.arr _ => true
  | Json.obj _ => true

/-- Array.isArray. -/
def isArr : Json → Bool
  | Json.arr _ => true
  | _ => false

/-- Property read: missing properties and property reads on non-objects
yield undefined (null here); the source only dereferences properties of
values already checked truthy, so the null propagation is never observed
as a crash. -/
def getField (j : Json) (name : String) : Json :=
  match j with
  | Json.obj fields =>
    match fields.lookup name with
    | Option.some v => v
    | Option.none => Json.null
  | _ => Json.null

/-- Property assignment: replaces the property in place or appends it if
absent; assignment on a non-object is a silent no-op. -/
def setField (j : Json) (name : String) (v : Json) : Json :=
  match j with
  | Json.obj fields =>
    if (fields.lookup name).isSome then
      Json.obj (fields.map (fun p => if p.1 = name then (p.1, v) else p))
    else Json.obj (fields ++ [(name, v)])
  | other => other

/-- Valid verbosity enum values. -/
def validVerbosity : List String := ["low", "medium", "high"]

/-- Test whether communicationStyle.verbosity holds one of the three enum
strings. -/
def verbosityValid (parsed : Json) : Bool :=
  match getField (getField parsed ("communicationStyle")) ("verbosity") with
  | Json.str s => validVerbosity.contains s
  | _ => false

/-- Functional form of the in-place repair parsed.communicationStyle
.verbosity = medium. -/
def coerceVerbosityMedium (parsed : Json) : Json :=
  setField parsed ("communicationStyle")
    (setField (getField parsed ("communicationStyle")) ("verbosity")
      (Json.str ("medium")))

/-- Out-of-range verbosity substitution shared verbatim by
parseProfileAnalysis and parsePersonaResult. -/
def repairVerbosity (parsed : Json) : Json :=
  if verbosityValid parsed then parsed else coerceVerbosityMedium parsed

/-- Top-level required fields of GeminiService.parsePersonaResult. -/
def personaRequiredFields : List String :=
  ["personaName", "summary", "professionalContext", "communicationStyle",
   "designBiases", "contentBiases", "briefConflicts", "designGuidance"]

/-- First required field that is falsy, if any. -/
def personaMissingRequired (parsed : Json) : Option String :=
  personaRequiredFields.find? (fun f => !truthy (getField parsed f))

/-- Guard of the professionalContext structure check. -/
def personaCtxBad (parsed : Json) : Bool :=
  let ctx := getField parsed ("professionalContext")
  !truthy (getField ctx ("role")) || !truthy (getField ctx ("industry"))
    || !truthy (getField ctx ("seniority"))

/-- Guard of the communicationStyle structure check. -/
def personaCommBad (parsed : Json) : Bool :=
  let cs := getField parsed ("communicationStyle")
  !truthy (getField cs ("tone")) || !truthy (getField cs ("verbosity"))

/-- Guard of the designBiases structure check. -/
def personaBiasBad (parsed : Json) : Bool :=
  let db := getField parsed ("designBiases")
  !truthy (getField db ("visualStyle")) || !truthy (getField db ("uxPriority"))

/-- Guard of the contentBiases structure check. -/
def personaContentBad (parsed : Json) : Bool :=
  let cb := getField parsed ("contentBiases")
  !isArr (getField cb ("respondsTo")) || !isArr (getField cb ("avoids"))

/-- Guard of the briefConflicts array check. -/
def personaConflictsBad (parsed : Json) : Bool :=
  !isArr (getField parsed ("briefConflicts"))

/-- Guard of the designGuidance truthiness check on its do and avoid
properties. -/
def personaGuidanceBad (parsed : Json) : Bool :=
  let dg := getField parsed ("designGuidance")
  !truthy (getField dg ("do")) || !truthy (getField dg ("avoid"))

/-- Guard of the designGuidance array-type check. -/
def personaGuidanceNotArrays (parsed : Json) : Bool :=
  let dg := getField parsed ("designGuidance")
  !isArr (getField dg ("do")) || !isArr (getField dg ("avoid"))

/-- Guard of the non-empty check on designGuidance.do. -/
def personaDoEmpty (parsed : Json) : Bool :=
  match getField (getField parsed ("designGuidance")) ("do") with
  | Json.arr l => l.length == 0
  | _ => false

/-- Guard of the non-empty check on designGuidance.avoid. -/
def personaAvoidEmpty (parsed : Json) : Bool :=
  match getField (getField parsed ("designGuidance")) ("avoid") with
  | Json.arr l => l.length == 0
  | _ => false

/-- Validation chain of GeminiService.parsePersonaResult on the parsed
document, with the error messages thrown inside the try block. -/
def validatePersonaResult (parsed : Json) : Except String Json :=
  match personaMissingRequired parsed with
  | Option.some f => Except.error ("Missing required field: " ++ f)
  | Option.none =>
    if personaCtxBad parsed then
      Except.error ("Invalid professionalContext structure")
    else if personaCommBad parsed then
      Except.error ("Invalid communicationStyle structure")
    else if personaBiasBad parsed then
      Except.error ("Invalid designBiases structure")
    else if personaContentBad parsed then
      Except.error ("Invalid contentBiases structure")
    else if personaConflictsBad parsed then
      Except.error ("briefConflicts must be an array")
    else if personaGuidanceBad parsed then
      Except.error ("Invalid designGuidance structure")
    else if personaGuidanceNotArrays parsed then
      Except.error ("designGuidance.do and designGuidance.avoid must be arrays")
    else if personaDoEmpty parsed then
      Except.error ("designGuidance.do must contain at least one item")
    else if personaAvoidEmpty parsed then
      Except.error ("designGuidance.avoid must contain at least one item")
    else Except.ok (repairVerbosity parsed)

/-- GeminiService.parsePersonaResult on the parsed document: the catch block
wraps every validation error with the parse-failure prefix. -/
def parsePersonaResult (parsed : Json) : Except String Json :=
  match validatePersonaResult parsed with
  | Except.error m => Except.error ("Failed to parse Gemini response: " ++ m)
  | Except.ok v => Except.ok v

/-- Guard of the structure check of GeminiService.parseProfileAnalysis. -/
def analysisStructBad (parsed : Json) : Bool :=
  !truthy (getField parsed ("professionalContext"))
    || !truthy (getField parsed ("communicationStyle"))
    || !truthy (getField parsed ("inferredDesignPreferences"))
    || !truthy (getField parsed ("inferredContentPreferences"))

/-- Validation of GeminiService.parseProfileAnalysis on the parsed
document. -/
def validateProfileAnalysis (parsed : Json) : Except String Json :=
  if analysisStructBad parsed then
    Except.error ("Invalid profile analysis structure")
  else Except.ok (repairVerbosity parsed)

/-- GeminiService.parseProfileAnalysis on the parsed document, with the
catch-block wrapping. -/
def parseProfileAnalysis (parsed : Json) : Except String Json :=
  match validateProfileAnalysis parsed with
  | Except.error m => Except.error ("Failed to parse Gemini response: " ++ m)
  | Except.ok v => Except.ok v

/-- Transient markers exactly as the claim and spec section 4.1 word them,
for comparison with the source's transientPatterns. -/
def specTransientMarkers : List String :=
  ["timeout", "network", "connection", "connection-refused",
   "host-not-found", "time-out", "socket hang up", "temporarily unavailable"]

/-- Classifier as the claim words it: retry-worthy iff the lower-cased
message contains one of the spec's transient markers and none of the
non-retryable markers. -/
def specRetryWorthy (message : String) : Bool :=
  let m := toLowerStr message
  specTransientMarkers.any (fun p => strContains m p)
    && !(nonRetryablePatterns.any (fun p => strContains m p))

/-- Conjunction of every persona validation guard except the verbosity enum
check: the document is structurally valid in the sense of the validator. -/
def personaStructOk (parsed : Json) : Bool :=
  (personaMissingRequired parsed).isNone
    && !personaCtxBad parsed && !personaCommBad parsed
    && !personaBiasBad parsed && !personaContentBad parsed
    && !personaConflictsBad parsed && !personaGuidanceBad parsed
    && !personaGuidanceNotArrays parsed && !personaDoEmpty parsed
    && !personaAvoidEmpty parsed

/-- Persona document builder: all fields valid, with the given
communicationStyle and designGuidance objects. -/
def personaDoc (commStyle designGuidance : Json) : Json :=
  Json.obj
    [("personaName", Json.str ("The Pragmatic Enterprise Leader")),
     ("summary", Json.str ("A results-driven leader.")),
     ("professionalContext",
      Json.obj [("role", Json.str ("Director")),
                ("industry", Json.str ("Technology")),
                ("seniority", Json.str ("Senior"))]),
     ("communicationStyle", commStyle),
     ("designBiases",
      Json.obj [("visualStyle", Json.str ("Clean and minimal")),
                ("uxPriority", Json.str ("Simplicity"))]),
     ("contentBiases",
      Json.obj [("respondsTo", Json.arr [Json.str ("Data-driven insights")]),
                ("avoids", Json.arr [Json.str ("Jargon")])]),
     ("briefConflicts", Json.arr []),
     ("designGuidance", designGuidance)]

/-- Well-formed communicationStyle object with the given verbosity value. -/
def commStyleWith (verbosity : Json) : Json :=
  Json.obj [("tone", Json.str ("Professional")), ("verbosity", verbosity)]

/-- Well-formed designGuidance object. -/
def guidanceOk : Json :=
  Json.obj [("do", Json.arr [Json.str ("Use whitespace")]),
            ("avoid", Json.arr [Json.str ("Clutter")])]

/-- Persona document that is valid except that designGuidance.avoid is
missing. -/
def personaMissingAvoid : Json :=
  personaDoc (commStyleWith (Json.str ("medium")))
    (Json.obj [("do", Json.arr [Json.str ("Use whitespace")])])

/-- Persona document that is valid except that designGuidance.do is the
empty list. -/
def personaEmptyDo : Json :=
  personaDoc (commStyleWith (Json.str ("medium")))
    (Json.obj [("do", Json.arr []),
               ("avoid", Json.arr [Json.str ("Clutter")])])

/-- Persona document that is structurally valid with the out-of-enum
verbosity value extreme. -/
def personaVerbosityExtreme : Json :=
  personaDoc (commStyleWith (Json.str ("extreme"))) guidanceOk

/-- Analysis document that is structurally valid with the out-of-enum
verbosity value extreme. -/
def analysisVerbosityExtreme : Json :=
  Json.obj
    [("professionalContext",
      Json.obj [("role", Json.str ("Engineer")),
                ("industry", Json.str ("Technology")),
                ("seniority", Json.str ("Mid-level"))]),
     ("communicationStyle", commStyleWith (Json.str ("extreme"))),
     ("inferredDesignPreferences",
      Json.obj [("visualStyle", Json.str ("Bold")),
                ("uxPriority", Json.str ("Clarity"))]),
     ("inferredContentPreferences",
      Json.obj [("respondsTo", Json.arr [Json.str ("Storytelling")]),
                ("avoids", Json.arr [Json.str ("Fluff")])])]

/-- Cleaned 900-character draft with a period at index 650 and no other
period: 650 letters, the period, then 249 letters. -/
def draftPeriodAt650 : String :=
  String.mk (List.replicate 650 'a' ++ '.' :: List.replicate 249 'b')

/-- Cleaned 900-character draft with no period at all and a space at index
799, so that the 800-character prefix ends in whitespace: 799 letters, one
space, then 100 letters. -/
def draftSpaceAt799 : String :=
  String.mk (List.replicate 799 'a' ++ ' ' :: List.replicate 100 'b')

/-- Ninety-word draft used for the regeneration scenario. -/
def draft90Words : String :=
  String.intercalate (" ") (List.replicate 90 ("aa"))

/-- Hundred-twenty-word regenerated draft. -/
def draft120Words : String :=
  String.intercalate (" ") (List.replicate 120 ("ab"))

theorem length_dropWhile_le {α : Type} (p : α → Bool) (l : List α) :
    (l.dropWhile p).length ≤ l.length :=
  (List.dropWhile_sublist p (l := l)).length_le

theorem trimChars_length_le (cs : List Char) :
    (trimChars cs).length ≤ cs.length := by
  unfold trimChars
  rw [List.length_reverse]
  calc ((cs.dropWhile Char.isWhitespace).reverse.dropWhile Char.isWhitespace).length
      ≤ (cs.dropWhile Char.isWhitespace).reverse.length :=
        length_dropWhile_le _ _
    _ = (cs.dropWhile Char.isWhitespace).length := List.length_reverse _
    _ ≤ cs.length := length_dropWhile_le _ _

theorem retryAux_invocations_le {α : Type} (fn : Nat → Except Err α)
    (op : String) (mr : Nat) :
    ∀ (fuel attempt : Nat) (lastError : Option Err),
      (retryAux fn op mr attempt fuel lastError).invocations ≤ fuel := by
  intro fuel
  induction fuel with
  | zero => intro attempt lastError; simp [retryAux]
  | succ n ih =>
    intro attempt lastError
    unfold retryAux
    cases h : fn attempt with
    | ok v => simp
    | error e =>
      simp only
      split
      · simp
      · simpa using Nat.succ_le_succ (ih (attempt + 1) (Option.some e))

theorem retry_first_attempt_nonretryable {α : Type} (fn : Nat → Except Err α)
    (op : String) (mr : Nat) (e : Err) (h0 : fn 0 = Except.error e)
    (ht : isTransientError e.message = false) :
    (retryWithBackoff fn op mr).result = Except.error e
      ∧ (retryWithBackoff fn op mr).invocations = 1
      ∧ (retryWithBackoff fn op mr).delays = []
      ∧ (retryWithBackoff fn op mr).logs
          = [op ++ " failed after " ++ toString 1 ++ " attempt(s): " ++ e.message] := by
  unfold retryWithBackoff retryAux
  rw [h0]
  simp [ht]

/-- C3: retryWithBackoff invokes the wrapped operation at most
maxRetries + 1 times, and with maxRetries = 2 and an operation that fails
with retryable errors on attempts 0 and 1 and succeeds on attempt 2, the
operation runs exactly 3 times with backoff delays of 2 ^ attempt * 1000
milliseconds (1000 then 2000) before the retries, and the success value is
returned. -/
theorem retry_bound_and_backoff_schedule :
    (∀ (α : Type) (fn : Nat → Except Err α) (op : String) (mr : Nat),
      (retryWithBackoff fn op mr).invocations ≤ mr + 1)
    ∧ (∀ (α : Type) (fn : Nat → Except Err α) (op : String) (v : α)
        (e0 e1 : Err),
      fn 0 = Except.error e0 → fn 1 = Except.error e1 → fn 2 = Except.ok v →
      isTransientError e0.message = true →
      isTransientError e1.message = true →
      (retryWithBackoff fn op 2).result = Except.ok v
        ∧ (retryWithBackoff fn op 2).invocations = 3
        ∧ (retryWithBackoff fn op 2).delays = [1000, 2000]) := by
  constructor
  · intro α fn op mr
    exact retryAux_invocations_le fn op mr (mr + 1) 0 Option.none
  · intro α fn op v e0 e1 h0 h1 h2 ht0 ht1
    unfold retryWithBackoff
    show ((retryAux fn op 2 0 (2 + 1) Option.none).result = Except.ok v) ∧ _
    unfold retryAux
    rw [h0]
    simp only [ht0]
    unfold retryAux
    rw [h1]
    simp only [ht1]
    unfold retryAux
    rw [h2]
    simp

/-- C3 witness: an operation failing with a network error, then a timeout,
then succeeding with 7, run with maxRetries = 2. -/
theorem retry_bound_and_backoff_schedule_witness :
    (retryWithBackoff
        (fun n => if n = 0 then Except.error ⟨"network glitch"⟩
                  else if n = 1 then Except.error ⟨"timeout"⟩
                  else Except.ok (7 : Nat)) ("op") 2).result = Except.ok 7
    ∧ (retryWithBackoff
        (fun n => if n = 0 then Except.error ⟨"network glitch"⟩
                  else if n = 1 then Except.error ⟨"timeout"⟩
                  else Except.ok (7 : Nat)) ("op") 2).invocations = 3
    ∧ (retryWithBackoff
        (fun n => if n = 0 then Except.error ⟨"network glitch"⟩
                  else if n = 1 then Except.error ⟨"timeout"⟩
                  else Except.ok (7 : Nat)) ("op") 2).delays = [1000, 2000] :=
  retry_bound_and_backoff_schedule.2 Nat
    (fun n => if n = 0 then Except.error ⟨"network glitch"⟩
              else if n = 1 then Except.error ⟨"timeout"⟩
              else Except.ok (7 : Nat))
    ("op") 7 ⟨"network glitch"⟩ ⟨"timeout"⟩ rfl rfl rfl (by decide) (by decide)

/-- C4 counterexample: a first-attempt non-retryable failure is propagated
as the original error object, whose message contains no digit at all, so
the propagated error is not annotated with the attempt count (the count
appears only in the diagnostic log). -/
theorem nonretryable_error_propagated_unchanged_cx :
    (retryWithBackoff
        (fun _ => (Except.error ⟨"invalid request"⟩ : Except Err Nat))
        ("Audio synthesis") 2).result = Except.error ⟨"invalid request"⟩
    ∧ ("invalid request").data.all (fun c => !c.isDigit) = true := by
  exact ⟨rfl, by decide⟩

/-- C4 (amended): for every wrapped operation whose first attempt fails
with an error the classifier marks non-retryable, retryWithBackoff invokes
the operation exactly once, performs no backoff delay, and propagates the
error unchanged; the attempt count appears only in the diagnostic log
line, not on the propagated error. -/
theorem nonretryable_failure_single_attempt {α : Type}
    (fn : Nat → Except Err α) (op : String) (mr : Nat) (e : Err)
    (h0 : fn 0 = Except.error e)
    (ht : isTransientError e.message = false) :
    (retryWithBackoff fn op mr).result = Except.error e
      ∧ (retryWithBackoff fn op mr).invocations = 1
      ∧ (retryWithBackoff fn op mr).delays = []
      ∧ (retryWithBackoff fn op mr).logs
          = [op ++ " failed after " ++ toString 1 ++ " attempt(s): " ++ e.message] :=
  retry_first_attempt_nonretryable fn op mr e h0 ht

/-- C4 witness: a quota error on the first attempt of a persona-generation
call. -/
theorem nonretryable_failure_single_attempt_witness :
    (retryWithBackoff
        (fun _ => (Except.error ⟨"quota exceeded for project"⟩ : Except Err Nat))
        ("Persona generation") 2).result = Except.error ⟨"quota exceeded for project"⟩
    ∧ (retryWithBackoff
        (fun _ => (Except.error ⟨"quota exceeded for project"⟩ : Except Err Nat))
        ("Persona generation") 2).invocations = 1
    ∧ (retryWithBackoff
        (fun _ => (Except.error ⟨"quota exceeded for project"⟩ : Except Err Nat))
        ("Persona generation") 2).delays = []
    ∧ (retryWithBackoff
        (fun _ => (Except.error ⟨"quota exceeded for project"⟩ : Except Err Nat))
        ("Persona generation") 2).logs
        = ["Persona generation" ++ " failed after " ++ toString 1
            ++ " attempt(s): " ++ "quota exceeded for project"] :=
  nonretryable_failure_single_attempt
    (fun _ => (Except.error ⟨"quota exceeded for project"⟩ : Except Err Nat))
    ("Persona generation") 2 ⟨"quota exceeded for project"⟩ rfl (by decide)

/-- C5 counterexample: the message etimedout is classified retry-worthy by
the code (it contains the literal marker etimedout) but contains none of
the claim's transient markers, so the claimed iff fails at this input. -/
theorem classifier_spec_literal_markers_cx :
    isTransientError ("etimedout") = true
      ∧ specRetryWorthy ("etimedout") = false := by
  decide

/-- C5 (amended): the classifier returns retry-worthy iff the lower-cased
message contains at least one of the code's literal transient markers
(timeout, network, connection, econnrefused, enotfound, etimedout, socket
hang up, temporarily unavailable) and none of the non-retryable markers
(rate limit, quota, authentication, api key, invalid, not found, private,
inaccessible, validation); the non-retryable set takes precedence. -/
theorem classifier_retryworthy_iff_markers (m : String) :
    isTransientError m = true ↔
      ((∃ p ∈ transientPatterns, strContains (toLowerStr m) p = true)
        ∧ (∀ q ∈ nonRetryablePatterns, strContains (toLowerStr m) q = false)) := by
  unfold isTransientError
  simp only [Bool.and_eq_true, Bool.not_eq_true', List.any_eq_true,
    List.any_eq_false, Bool.not_eq_true]

/-- C5 witness: a message containing only a transient marker is
retry-worthy. -/
theorem classifier_retryworthy_iff_markers_witness :
    isTransientError ("connection timeout") = true :=
  (classifier_retryworthy_iff_markers ("connection timeout")).mpr (by decide)

/-- C1: when the analysis, persona-generation and script-generation stages
settle successfully through the retry executor and the audio-synthesis
stage settles with a failure (after its retries), generatePersona does not
raise: it returns a complete result whose persona and audioScript are the
successfully produced values and whose audioUrl is the empty string. -/
theorem generatePersona_audio_failure_degrades {A P : Type}
    (analyze : Nat → Except Err A) (genPersonaStage : A → Nat → Except Err P)
    (genScriptStage : P → Nat → Except Err String)
    (synthStage : String → Nat → Except Err AudioResult)
    (t : Nat) (a : A) (p : P) (s : String) (e : Err)
    (h1 : (retryWithBackoff analyze ("Article text analysis") 2).result
            = Except.ok a)
    (h2 : (retryWithBackoff (genPersonaStage a) ("Persona generation") 2).result
            = Except.ok p)
    (h3 : (retryWithBackoff (genScriptStage p) ("Audio script generation") 2).result
            = Except.ok s)
    (h4 : (retryWithBackoff (synthStage s) ("Audio synthesis") 2).result
            = Except.error e) :
    generatePersona analyze genPersonaStage genScriptStage synthStage t
      = Except.ok ⟨p, "", s, t⟩ := by
  simp only [generatePersona, h1, h2, h3, h4]

/-- C1 witness: all three text stages succeed at once and synthesis always
fails with a retryable timeout, exhausting its retries. -/
theorem generatePersona_audio_failure_degrades_witness :
    generatePersona (fun _ => Except.ok (0 : Nat))
        (fun a _ => Except.ok (a + 1))
        (fun _ _ => Except.ok ("script text"))
        (fun _ _ => Except.error ⟨"timeout"⟩) 42
      = Except.ok ⟨1, "", "script text", 42⟩ :=
  generatePersona_audio_failure_degrades
    (fun _ => Except.ok (0 : Nat)) (fun a _ => Except.ok (a + 1))
    (fun _ _ => Except.ok ("script text"))
    (fun _ _ => Except.error ⟨"timeout"⟩)
    42 0 1 "script text" ⟨"timeout"⟩ rfl rfl rfl rfl

/-- C2 counterexample: a stage-1 failure is re-thrown with the pipeline
context prefix but with a message containing no digit at all, so the
thrown message cannot identify the elapsed time (here 5 milliseconds). -/
theorem pipeline_failure_message_lacks_elapsed_cx :
    generatePersona (A := Nat) (P := Nat)
        (fun _ => Except.error ⟨"invalid input"⟩)
        (fun _ _ => Except.ok 0) (fun _ _ => Except.ok ("s"))
        (fun _ _ => Except.ok ⟨[], 0⟩) 5
      = Except.error ⟨"Persona generation failed: invalid input"⟩
    ∧ ("Persona generation failed: invalid input").data.all
        (fun c => !c.isDigit) = true :=
  ⟨rfl, by decide⟩

/-- C2 (amended): a settled failure in any of the first three stages makes
generatePersona yield no partial result: it re-throws an error whose
message identifies the pipeline-level failure context (the prefix Persona
generation failed followed by the stage error's message); the elapsed time
is logged but not included in the thrown message. -/
theorem pipeline_stage_failure_rethrown_with_context {A P : Type}
    (analyze : Nat → Except Err A) (genPersonaStage : A → Nat → Except Err P)
    (genScriptStage : P → Nat → Except Err String)
    (synthStage : String → Nat → Except Err AudioResult) (t : Nat) :
    (∀ e : Err,
      (retryWithBackoff analyze ("Article text analysis") 2).result
          = Except.error e →
      generatePersona analyze genPersonaStage genScriptStage synthStage t
        = Except.error ⟨"Persona generation failed: " ++ e.message⟩)
    ∧ (∀ (a : A) (e : Err),
      (retryWithBackoff analyze ("Article text analysis") 2).result
          = Except.ok a →
      (retryWithBackoff (genPersonaStage a) ("Persona generation") 2).result
          = Except.error e →
      generatePersona analyze genPersonaStage genScriptStage synthStage t
        = Except.error ⟨"Persona generation failed: " ++ e.message⟩)
    ∧ (∀ (a : A) (p : P) (e : Err),
      (retryWithBackoff analyze ("Article text analysis") 2).result
          = Except.ok a →
      (retryWithBackoff (genPersonaStage a) ("Persona generation") 2).result
          = Except.ok p →
      (retryWithBackoff (genScriptStage p) ("Audio script generation") 2).result
          = Except.error e →
      generatePersona analyze genPersonaStage genScriptStage synthStage t
        = Except.error ⟨"Persona generation failed: " ++ e.message⟩) := by
  refine ⟨?_, ?_, ?_⟩
  · intro e h1
    simp only [generatePersona, h1]
  · intro a e h1 h2
    simp only [generatePersona, h1, h2]
  · intro a p e h1 h2 h3
    simp only [generatePersona, h1, h2, h3]

/-- C2 witness: a stage-2 failure with a non-retryable message aborts the
pipeline with the wrapping prefix. -/
theorem pipeline_stage_failure_rethrown_with_context_witness :
    generatePersona (fun _ => Except.ok (0 : Nat))
        (fun _ _ => (Except.error ⟨"invalid"⟩ : Except Err Nat))
        (fun _ _ => Except.ok ("s")) (fun _ _ => Except.ok ⟨[], 0⟩) 7
      = Except.error ⟨"Persona generation failed: " ++ "invalid"⟩ :=
  (pipeline_stage_failure_rethrown_with_context
      (fun _ => Except.ok (0 : Nat))
      (fun _ _ => (Except.error ⟨"invalid"⟩ : Except Err Nat))
      (fun _ _ => Except.ok ("s")) (fun _ _ => Except.ok ⟨[], 0⟩) 7).2.1
    0 ⟨"invalid"⟩ rfl rfl

theorem truncateTo800_length_le (s : String) :
    (truncateTo800 s).length ≤ 800 := by
  have ht : (jsTrim (String.mk (s.data.take 800))).data.length ≤ 800 := by
    show (trimChars (s.data.take 800)).length ≤ 800
    calc (trimChars (s.data.take 800)).length
        ≤ (s.data.take 800).length := trimChars_length_le _
      _ ≤ 800 := by
          rw [List.length_take]
          exact Nat.min_le_left _ _
  simp only [truncateTo800]
  cases hlp : lastIndexOfChar (jsTrim (String.mk (s.data.take 800))).data '.' with
  | none => exact ht
  | some i =>
    dsimp only
    split
    · show ((jsTrim (String.mk (s.data.take 800))).data.take (i + 1)).length ≤ 800
      calc ((jsTrim (String.mk (s.data.take 800))).data.take (i + 1)).length
          ≤ (jsTrim (String.mk (s.data.take 800))).data.length := by
            rw [List.length_take]
            exact Nat.min_le_right _ _
        _ ≤ 800 := ht
    · exact ht

set_option maxRecDepth 100000

set_option maxHeartbeats 2000000

/-- C6 counterexample: a cleaned 900-character draft with no period and a
space at index 799 is truncated to 799 characters, not exactly the first
800, because the source trims the 800-character prefix before the period
search. -/
theorem truncation_not_exactly_800_cx :
    cleanAudioScript draftSpaceAt799 = draftSpaceAt799
      ∧ draftSpaceAt799.length = 900
      ∧ draftSpaceAt799.data.all (fun c => !(c = '.')) = true
      ∧ (generateAudioScript draftSpaceAt799 (fun _ => "")).script.length = 799 := by
  refine ⟨by decide, by decide, by decide, by decide⟩

/-- C6 (amended): for every cleaned draft of more than 800 characters,
generateAudioScript returns immediately with no regeneration call; the
output is truncateTo800 of the cleaned draft, that is the first 800
characters trimmed of surrounding whitespace and cut just after the last
period whose index in that trimmed prefix exceeds 600 when one exists; the
output never exceeds 800 characters (and it is exactly the first 800
characters only when that prefix needs no trimming). -/
theorem script_char_ceiling_truncation (firstRaw : String)
    (retryRawOf : Nat → String)
    (h : (cleanAudioScript firstRaw).length > 800) :
    (generateAudioScript firstRaw retryRawOf).calls = [Option.none]
      ∧ (generateAudioScript firstRaw retryRawOf).script
          = truncateTo800 (cleanAudioScript firstRaw)
      ∧ (generateAudioScript firstRaw retryRawOf).script.length ≤ 800 := by
  have hg : generateAudioScript firstRaw retryRawOf
      = ⟨truncateTo800 (cleanAudioScript firstRaw), [Option.none]⟩ := by
    unfold generateAudioScript
    rw [if_pos h]
  refine ⟨by rw [hg], by rw [hg], ?_⟩
  rw [hg]
  exact truncateTo800_length_le _

/-- C6 witness: a cleaned 900-character draft whose only period sits at
index 650 is cut to the text up to and including that period. -/
theorem script_char_ceiling_truncation_witness :
    (cleanAudioScript draftPeriodAt650).length > 800
      ∧ (generateAudioScript draftPeriodAt650 (fun _ => "")).script
          = String.mk (List.replicate 650 'a' ++ ['.']) := by
  refine ⟨by decide, ?_⟩
  have h := script_char_ceiling_truncation draftPeriodAt650 (fun _ => "")
    (by decide)
  exact h.2.1.trans (by decide)

/-- C7: for every cleaned draft of at most 800 characters whose word count
lies outside 110..150, generateAudioScript issues exactly one regeneration
call carrying the previous word count as feedback; when the regenerated,
cleaned text is at most 800 characters, it is returned exactly when its
word count lies within 110..150, and the original draft is returned
otherwise. -/
theorem script_wordcount_regeneration_policy (firstRaw : String)
    (retryRawOf : Nat → String)
    (hc : ¬ (cleanAudioScript firstRaw).length > 800)
    (hw : countWords (cleanAudioScript firstRaw) < 110
            ∨ countWords (cleanAudioScript firstRaw) > 150)
    (hrc : ¬ (cleanAudioScript
        (retryRawOf (countWords (cleanAudioScript firstRaw)))).length > 800) :
    (generateAudioScript firstRaw retryRawOf).calls
        = [Option.none, Option.some (countWords (cleanAudioScript firstRaw))]
      ∧ (generateAudioScript firstRaw retryRawOf).script
          = (if countWords (cleanAudioScript
                  (retryRawOf (countWords (cleanAudioScript firstRaw)))) ≥ 110
                ∧ countWords (cleanAudioScript
                  (retryRawOf (countWords (cleanAudioScript firstRaw)))) ≤ 150
             then cleanAudioScript (retryRawOf (countWords (cleanAudioScript firstRaw)))
             else cleanAudioScript firstRaw) := by
  unfold generateAudioScript
  rw [if_neg hc, if_pos hw, if_neg hrc]
  exact ⟨rfl, rfl⟩

/-- C7 witness: a 90-word draft triggers one regeneration with feedback 90,
and the 120-word regenerated draft is returned. -/
theorem script_wordcount_regeneration_policy_witness :
    (generateAudioScript draft90Words (fun _ => draft120Words)).calls
        = [Option.none, Option.some 90]
      ∧ (generateAudioScript draft90Words (fun _ => draft120Words)).script
          = draft120Words := by
  have h := script_wordcount_regeneration_policy draft90Words
    (fun _ => draft120Words) (by decide) (by decide) (by decide)
  exact ⟨h.1.trans (by decide), h.2.trans (by decide)⟩

theorem parsePersonaResult_ok_val {parsed j : Json}
    (h : parsePersonaResult parsed = Except.ok j) :
    validatePersonaResult parsed = Except.ok j := by
  unfold parsePersonaResult at h
  cases hv : validatePersonaResult parsed with
  | error m => rw [hv] at h; simp at h
  | ok v => rw [hv] at h; simp at h; exact congrArg Except.ok h

theorem validatePersonaResult_ok_guards {parsed j : Json}
    (h : validatePersonaResult parsed = Except.ok j) :
    personaGuidanceBad parsed = false ∧ personaDoEmpty parsed = false := by
  unfold validatePersonaResult at h
  cases hm : personaMissingRequired parsed with
  | some f => rw [hm] at h; simp at h
  | none =>
    rw [hm] at h
    split_ifs at h with h1 h2 h3 h4 h5 h6 h7 h8 h9
    all_goals exact ⟨by simpa using h6, by simpa using h8⟩

/-- C8 counterexample: a persona document that is valid except for the
missing designGuidance.avoid fails with the validation error Invalid
designGuidance structure, whose message does not contain the name of the
avoid field. -/
theorem missing_avoid_error_message_cx :
    parsePersonaResult personaMissingAvoid
        = Except.error ("Failed to parse Gemini response: Invalid designGuidance structure")
      ∧ strContains
          ("Failed to parse Gemini response: Invalid designGuidance structure")
          ("avoid") = false := by
  refine ⟨rfl, by decide⟩

/-- C8 (amended): a persona document whose designGuidance.avoid property is
missing never validates (the error is Invalid designGuidance structure,
which names the designGuidance structure but not the avoid leaf), and a
document whose designGuidance.do is the empty list never validates (the
error names designGuidance.do); witnessed on otherwise-valid documents. -/
theorem designGuidance_validation_failures :
    (∀ (parsed j : Json),
      getField (getField parsed ("designGuidance")) ("avoid") = Json.null →
      parsePersonaResult parsed ≠ Except.ok j)
    ∧ (∀ (parsed j : Json),
      getField (getField parsed ("designGuidance")) ("do") = Json.arr [] →
      parsePersonaResult parsed ≠ Except.ok j)
    ∧ parsePersonaResult personaMissingAvoid
        = Except.error ("Failed to parse Gemini response: Invalid designGuidance structure")
    ∧ parsePersonaResult personaEmptyDo
        = Except.error ("Failed to parse Gemini response: designGuidance.do must contain at least one item") := by
  refine ⟨?_, ?_, rfl, rfl⟩
  · intro parsed j hnull hok
    have hg := (validatePersonaResult_ok_guards (parsePersonaResult_ok_val hok)).1
    simp [personaGuidanceBad, hnull, truthy] at hg
  · intro parsed j hdo hok
    have hg := (validatePersonaResult_ok_guards (parsePersonaResult_ok_val hok)).2
    simp [personaDoEmpty, hdo] at hg

/-- C8 witness: the missing-avoid document indeed never validates. -/
theorem designGuidance_validation_failures_witness :
    parsePersonaResult personaMissingAvoid ≠ Except.ok Json.null :=
  designGuidance_validation_failures.1 personaMissingAvoid Json.null (by rfl)

/-- C9: a persona document passing every structural guard but whose
communicationStyle.verbosity is not one of the three enum values parses
successfully with verbosity silently replaced by medium, and likewise for
an analysis document passing the profile-analysis structure guard. -/
theorem verbosity_out_of_range_coerced :
    (∀ parsed : Json, personaStructOk parsed = true →
      verbosityValid parsed = false →
      parsePersonaResult parsed = Except.ok (coerceVerbosityMedium parsed))
    ∧ (∀ parsed : Json, analysisStructBad parsed = false →
      verbosityValid parsed = false →
      parseProfileAnalysis parsed = Except.ok (coerceVerbosityMedium parsed)) := by
  constructor
  · intro parsed hok hv
    simp only [personaStructOk, Bool.and_eq_true, Bool.not_eq_true',
      Option.isNone_iff_eq_none] at hok
    obtain ⟨⟨⟨⟨⟨⟨⟨⟨⟨hm, h1⟩, h2⟩, h3⟩, h4⟩, h5⟩, h6⟩, h7⟩, h8⟩, h9⟩ := hok
    unfold parsePersonaResult validatePersonaResult
    rw [hm]
    simp [h1, h2, h3, h4, h5, h6, h7, h8, h9, repairVerbosity, hv]
  · intro parsed hs hv
    unfold parseProfileAnalysis validateProfileAnalysis
    simp [hs, repairVerbosity, hv]

/-- C9 witness: concrete persona and analysis documents with verbosity
extreme are accepted with verbosity coerced to medium. -/
theorem verbosity_out_of_range_coerced_witness :
    personaStructOk personaVerbosityExtreme = true
      ∧ parsePersonaResult personaVerbosityExtreme
          = Except.ok (coerceVerbosityMedium personaVerbosityExtreme)
      ∧ parseProfileAnalysis analysisVerbosityExtreme
          = Except.ok (coerceVerbosityMedium analysisVerbosityExtreme) :=
  ⟨by decide,
   verbosity_out_of_range_coerced.1 personaVerbosityExtreme (by decide) (by decide),
   verbosity_out_of_range_coerced.2 analysisVerbosityExtreme (by decide) (by decide)⟩

/-- C10: quota and rate-limit synthesis failures, authentication and
API-key synthesis failures, and the empty-script validation failure are
re-thrown by synthesizeSpeech with messages the classifier marks
non-retryable, so retryWithBackoff invokes the synthesis operation exactly
once for such failures with no backoff delay. -/
theorem synthesis_permanent_errors_not_retried :
    (∀ (script : String) (e : Err) (op : String) (mr : Nat),
      scriptEmptyCheck script = false →
      (strContains e.message ("quota") || strContains e.message ("rate limit")) = true →
      synthesizeSpeech script (Except.error e)
          = Except.error ⟨"ElevenLabs rate limit exceeded. Please try again later."⟩
        ∧ isTransientError ("ElevenLabs rate limit exceeded. Please try again later.") = false
        ∧ (retryWithBackoff (fun _ => synthesizeSpeech script (Except.error e)) op mr).invocations = 1
        ∧ (retryWithBackoff (fun _ => synthesizeSpeech script (Except.error e)) op mr).delays = [])
    ∧ (∀ (script : String) (e : Err) (op : String) (mr : Nat),
      scriptEmptyCheck script = false →
      (strContains e.message ("quota") || strContains e.message ("rate limit")) = false →
      (strContains e.message ("authentication") || strContains e.message ("API key")) = true →
      synthesizeSpeech script (Except.error e)
          = Except.error ⟨"ElevenLabs authentication failed. Please check API key configuration."⟩
        ∧ isTransientError ("ElevenLabs authentication failed. Please check API key configuration.") = false
        ∧ (retryWithBackoff (fun _ => synthesizeSpeech script (Except.error e)) op mr).invocations = 1
        ∧ (retryWithBackoff (fun _ => synthesizeSpeech script (Except.error e)) op mr).delays = [])
    ∧ (∀ (script : String) (api : Except Err (List Nat)) (op : String) (mr : Nat),
      scriptEmptyCheck script = true →
      synthesizeSpeech script api = Except.error ⟨"Script cannot be empty"⟩
        ∧ isTransientError ("Script cannot be empty") = false
        ∧ (retryWithBackoff (fun _ => synthesizeSpeech script api) op mr).invocations = 1
        ∧ (retryWithBackoff (fun _ => synthesizeSpeech script api) op mr).delays = []) := by
  refine ⟨?_, ?_, ?_⟩
  · intro script e op mr hscript hq
    have hs : synthesizeSpeech script (Except.error e)
        = Except.error ⟨"ElevenLabs rate limit exceeded. Please try again later."⟩ := by
      unfold synthesizeSpeech mapSynthesisError
      rw [hscript]
      simp [hq]
    have htr := retry_first_attempt_nonretryable
      (fun _ => synthesizeSpeech script (Except.error e)) op mr
      ⟨"ElevenLabs rate limit exceeded. Please try again later."⟩ hs (by decide)
    exact ⟨hs, by decide, htr.2.1, htr.2.2.1⟩
  · intro script e op mr hscript hq ha
    have hs : synthesizeSpeech script (Except.error e)
        = Except.error ⟨"ElevenLabs authentication failed. Please check API key configuration."⟩ := by
      unfold synthesizeSpeech mapSynthesisError
      rw [hscript]
      simp [hq, ha]
    have htr := retry_first_attempt_nonretryable
      (fun _ => synthesizeSpeech script (Except.error e)) op mr
      ⟨"ElevenLabs authentication failed. Please check API key configuration."⟩ hs (by decide)
    exact ⟨hs, by decide, htr.2.1, htr.2.2.1⟩
  · intro script api op mr hscript
    have hs : synthesizeSpeech script api
        = Except.error ⟨"Script cannot be empty"⟩ := by
      unfold synthesizeSpeech mapSynthesisError
      rw [hscript]
      simp
      decide
    have htr := retry_first_attempt_nonretryable
      (fun _ => synthesizeSpeech script api) op mr
      ⟨"Script cannot be empty"⟩ hs (by decide)
    exact ⟨hs, by decide, htr.2.1, htr.2.2.1⟩

/-- C10 witness: a quota failure of the remote synthesis call on a
non-empty script is mapped to the rate-limit message and retried zero
times. -/
theorem synthesis_permanent_errors_not_retried_witness :
    synthesizeSpeech ("hello world") (Except.error ⟨"quota exceeded"⟩)
        = Except.error ⟨"ElevenLabs rate limit exceeded. Please try again later."⟩
      ∧ isTransientError ("ElevenLabs rate limit exceeded. Please try again later.") = false
      ∧ (retryWithBackoff
          (fun _ => synthesizeSpeech ("hello world") (Except.error ⟨"quota exceeded"⟩))
          ("Audio synthesis") 2).invocations = 1
      ∧ (retryWithBackoff
          (fun _ => synthesizeSpeech ("hello world") (Except.error ⟨"quota exceeded"⟩))
          ("Audio synthesis") 2).delays = [] :=
  synthesis_permanent_errors_not_retried.1 "hello world" ⟨"quota exceeded"⟩
    ("Audio synthesis") 2 (by decide) (by decide)

end Personification
